import Mathlib

/-!
Shallow embedding of the xDS resolver core
(`src/xds/internal/resolver/xds_resolver.go`) and proofs about the
specified behaviour of its state machine.

The resolver state is embedded as a structure, the Go `map[string]*clusterInfo`
as an association list with unique keys, and the side effects visible to the
channel (`cc.UpdateState`, `cc.ReportError`) as an explicit output list.
External collaborators that live outside the embedded file (the route matcher
compiler and the virtual-host matcher from the xdsresource package) are
abstracted as parameters of the transition functions; code of the repository
that the claims need but that is not part of the embedded file is modelled
from the specification and marked as such in its doc comment.
-/

set_option autoImplicit false

namespace XdsRes

/-- Opaque stand-in for a balancer configuration blob (the contents are never
inspected by the resolver core). -/
abbrev BalancerCfg := String

/-- Child policy recorded for an active cluster.  `noPolicy` is the Go zero
value of `xdsChildConfig`; `cspPolicy` holds the cluster-specifier-plugin
balancer configuration (the lookup in `ClusterSpecifierPlugins` may miss, in
which case Go stores the zero value, modelled by `Option`); `cdsPolicy` is the
CDS child policy pointing at the named cluster. -/
inductive ChildPolicy where
  | noPolicy
  | cspPolicy (cfg : Option BalancerCfg)
  | cdsPolicy (cluster : String)
deriving DecidableEq

/-- Embeds `xdsChildConfig`. -/
structure xdsChildConfig where
  childPolicy : ChildPolicy
deriving DecidableEq

/-- Embeds `clusterInfo`: the per-cluster reference count (an `int32` accessed
atomically in Go; overflow is irrelevant at the scales the claims concern, so
it is embedded as `Int`) and the recorded child configuration. -/
structure clusterInfo where
  refCount : Int
  cfg : xdsChildConfig
deriving DecidableEq

/-- The active-cluster table `map[string]*clusterInfo`, embedded as an
association list whose keys are unique in every state the resolver builds. -/
abbrev AC := List (String × clusterInfo)

/-- Map lookup `r.activeClusters[name]`. -/
def acGet : AC → String → Option clusterInfo
  | [], _ => none
  | (k', v) :: rest, k => if k' = k then some v else acGet rest k

/-- Pointwise mutation of the entry stored under a key (embeds a write through
the `*clusterInfo` pointer, e.g. `ci.cfg = ...` or an atomic add on
`ci.refCount`). -/
def acModify : AC → String → (clusterInfo → clusterInfo) → AC
  | [], _, _ => []
  | (k', v) :: rest, k, f => if k' = k then (k', f v) :: rest else (k', v) :: acModify rest k f

/-- `atomic.AddInt32(&ci.refCount, d)` on the entry stored under `k`. -/
def bumpRef (m : AC) (k : String) (d : Int) : AC :=
  acModify m k fun ci => { ci with refCount := ci.refCount + d }

/-- Embeds `addOrGetActiveClusterInfo` (xds_resolver.go:371-380): return the
existing entry for `name`, or insert and return a fresh entry with a zero
reference count (the Go literal `&clusterInfo{refCount: 0}` leaves `cfg` at its
zero value). -/
def addOrGetActiveClusterInfo (m : AC) (name : String) : clusterInfo × AC :=
  match acGet m name with
  | some ci => (ci, m)
  | none =>
      let ci : clusterInfo := { refCount := 0, cfg := { childPolicy := ChildPolicy.noPolicy } }
      (ci, m ++ [(name, ci)])

/-- Embeds `pruneActiveClusters` (xds_resolver.go:363-369): delete every entry
whose reference count is zero. -/
def pruneActiveClusters (m : AC) : AC :=
  m.filter fun p => p.2.refCount != 0

/-- Weighted-cluster entry of a route (`WeightedCluster`): weight and the
per-weighted-cluster HTTP filter overrides (opaque). -/
structure WeightedCluster where
  weight : Nat
  httpFilterConfigOverride : String
deriving DecidableEq

/-- Embeds the route view consumed by the resolver (`xdsresource.Route`),
keeping only structure the resolver reads: the cluster-specifier plugin name
(empty string when absent), the weighted-cluster table, the action type, the
optional max-stream duration, filter overrides, retry configuration, hash
policies, and the (opaque) match expression handed to the route-matcher
compiler. -/
structure Route where
  clusterSpecifierPlugin : String
  weightedClusters : List (String × WeightedCluster)
  actionType : String
  maxStreamDuration : Option Int
  httpFilterConfigOverride : String
  retryConfig : Option String
  hashPolicies : List String
  matchSpec : String
deriving DecidableEq

/-- Embeds the virtual-host view (`xdsresource.VirtualHost`). -/
structure VirtualHost where
  routes : List Route
  httpFilterConfigOverride : String
  retryConfig : Option String
deriving DecidableEq

/-- Embeds `xdsresource.RouteConfigUpdate`: virtual hosts and the
cluster-specifier-plugin balancer configurations. -/
structure RouteConfigUpdate where
  virtualHosts : List VirtualHost
  clusterSpecifierPlugins : List (String × BalancerCfg)
deriving DecidableEq

/-- Embeds `xdsresource.ListenerUpdate`: HTTP filters (opaque), the default
max-stream duration, and either an inline route configuration or the name of
the RouteConfiguration resource to subscribe to. -/
structure ListenerUpdate where
  httpFilters : List String
  maxStreamDuration : Int
  inlineRouteConfig : Option RouteConfigUpdate
  routeConfigName : String
deriving DecidableEq

/-- A compiled per-route entry of a config selector (`cs.routes[i]`): the
weighted picker contents, the compiled matcher (opaque), and the per-route
policy data copied by `newConfigSelector`. -/
structure RouteEntry where
  pickerEntries : List (String × Int)
  m : String
  actionType : String
  maxStreamDuration : Int
  httpFilterConfigOverride : String
  retryConfig : Option String
  hashPolicies : List String
deriving DecidableEq

/-- Embeds `configSelector`: the set of cluster keys it references (the Go
`cs.clusters` map holds pointers into the active-cluster table; here the keys
name those shared entries), the compiled routes, the captured virtual-host
level overrides, and the Listener HTTP filters. -/
structure configSelector where
  clusters : List String
  routes : List RouteEntry
  vhHTTPFilterConfigOverride : String
  vhRetryConfig : Option String
  httpFilterConfig : List String
deriving DecidableEq

/-- The serializer-confined state of `xdsResolver` (xds_resolver.go:191-227).
The channel handle, logger, serializer and xDS client are external
collaborators; the route-config watcher is represented by the resource name it
is subscribed to (`none` = no watcher). -/
structure xdsResolverState where
  ldsResourceName : String
  listenerUpdateRecvd : Bool
  currentListener : ListenerUpdate
  rdsResourceName : String
  routeConfigWatcher : Option String
  routeConfigUpdateRecvd : Bool
  currentRouteConfig : RouteConfigUpdate
  currentVirtualHost : Option VirtualHost
  activeClusters : AC
  curConfigSelector : Option configSelector
deriving DecidableEq

/-- The service-configuration document pushed to the channel: either the empty
JSON object, or an `xds_cluster_manager` document whose children map is the
given list of cluster key / child config pairs. -/
inductive ServiceConfig where
  | emptyDoc
  | xdsClusterManager (children : List (String × xdsChildConfig))
deriving DecidableEq

/-- A side effect surfaced to the channel: `cc.UpdateState` with a service
configuration and the attached config selector (`none` both for a nil selector
and for the empty-document update, which attaches no selector), or
`cc.ReportError`. -/
inductive Output where
  | updateState (sc : ServiceConfig) (cs : Option configSelector)
  | reportError (e : String)
deriving DecidableEq

/-- External collaborators of the resolver core that live outside the embedded
file: `xdsresource.RouteToMatcher` (compiling a route match expression, which
can fail) and `xdsresource.FindBestMatchingVirtualHost`. -/
structure ExternalEnv where
  routeToMatcher : Route → Except String String
  findBestMatchingVirtualHost : String → List VirtualHost → Option VirtualHost

/-- Modelled from the spec: the cluster-key builders of the service-config
formatter (the constants live outside the embedded file).  Spec section 3: a
CDS-backed cluster key is `cluster:<name>`. -/
def clusterKeyOfCDS (c : String) : String := "cluster:" ++ c

/-- Modelled from the spec: spec section 3, a cluster-specifier-plugin key is
`csp:<plugin-name>`. -/
def clusterKeyOfCSP (p : String) : String := "csp:" ++ p

/-- Modelled from the spec: `serviceConfigJSON` (the service-config formatter,
outside the embedded file).  Spec section 4.3: a pure function of the
active-cluster table producing an `xds_cluster_manager` document whose children
are exactly the keys of the table with their recorded child-policy configs; the
marshalling error "should never happen" and the model never fails. -/
def serviceConfigJSON (m : AC) : Except String ServiceConfig :=
  Except.ok (ServiceConfig.xdsClusterManager (m.map fun p => (p.1, p.2.cfg)))

/-- Modelled from the spec: `configSelector.stop` (outside the embedded file).
Spec section 4.2: stopping a selector decrements each held cluster reference
once; the transition-to-zero notification is a separately scheduled serializer
event and not part of the synchronous state change.  Applied to an optional
selector because Go invokes `stop` on a possibly-nil receiver. -/
def stopSelector (cs : Option configSelector) (m : AC) : AC :=
  match cs with
  | none => m
  | some c => c.clusters.foldl (fun acc k => bumpRef acc k (-1)) m

/-- The weighted-picker contents built for one route (xds_resolver.go:311-331):
a cluster-specifier-plugin route contributes its single key with weight 1,
otherwise each weighted cluster contributes its key with its integer weight. -/
def pickerOf (rt : Route) : List (String × Int) :=
  if rt.clusterSpecifierPlugin ≠ "" then
    [(clusterKeyOfCSP rt.clusterSpecifierPlugin, 1)]
  else
    rt.weightedClusters.map fun p => (clusterKeyOfCDS p.1, Int.ofNat p.2.weight)

/-- The cluster-specifier-plugin arm of the per-route loop
(xds_resolver.go:312-319): register the `csp` cluster key and record the
plugin balancer configuration as its child config.  Returns the updated table
and the cluster keys referenced. -/
def addClusterCsp (rc : RouteConfigUpdate) (plugin : String) (m : AC) : AC × List String :=
  let name := clusterKeyOfCSP plugin
  let m1 := (addOrGetActiveClusterInfo m name).2
  let m2 := acModify m1 name fun ci =>
    { ci with cfg := { childPolicy := ChildPolicy.cspPolicy (List.lookup plugin rc.clusterSpecifierPlugins) } }
  (m2, [name])

/-- The weighted-clusters arm of the per-route loop (xds_resolver.go:321-330):
for each weighted cluster, register the `cluster:` key and record a CDS child
policy pointing at the cluster.  Returns the updated table and the cluster
keys referenced, in iteration order. -/
def addWeightedClusters : List (String × WeightedCluster) → AC → AC × List String
  | [], m => (m, [])
  | (c, _wc) :: rest, m =>
      let name := clusterKeyOfCDS c
      let m1 := (addOrGetActiveClusterInfo m name).2
      let m2 := acModify m1 name fun ci =>
        { ci with cfg := { childPolicy := ChildPolicy.cdsPolicy c } }
      let r := addWeightedClusters rest m2
      (r.1, name :: r.2)

/-- Adds cluster keys to the accumulated `cs.clusters` key set, skipping keys
already present (the Go `cs.clusters` is a map, so repeated keys collapse). -/
def insertNewKeys (acc : List String) (names : List String) : List String :=
  names.foldl (fun a n => if n ∈ a then a else a ++ [n]) acc

/-- The per-route loop of `newConfigSelector` (xds_resolver.go:310-349): for
each route, register its clusters in the active-cluster table (overwriting
their child configs) and in the selector key set, then compile the route
matcher — failing the whole build, with the table mutations so far kept, when
the matcher is invalid — and record the per-route policy data. -/
def buildRoutes (env : ExternalEnv) (lis : ListenerUpdate) (rc : RouteConfigUpdate) :
    List Route → AC → List String → List RouteEntry →
    AC × Except String (List String × List RouteEntry)
  | [], m, acc, entries => (m, Except.ok (acc, entries))
  | rt :: rest, m, acc, entries =>
      let step :=
        if rt.clusterSpecifierPlugin ≠ "" then addClusterCsp rc rt.clusterSpecifierPlugin m
        else addWeightedClusters rt.weightedClusters m
      let m1 := step.1
      let acc1 := insertNewKeys acc step.2
      match env.routeToMatcher rt with
      | Except.error e => (m1, Except.error e)
      | Except.ok mt =>
          let entry : RouteEntry :=
            { pickerEntries := pickerOf rt
              m := mt
              actionType := rt.actionType
              maxStreamDuration := (rt.maxStreamDuration).getD lis.maxStreamDuration
              httpFilterConfigOverride := rt.httpFilterConfigOverride
              retryConfig := rt.retryConfig
              hashPolicies := rt.hashPolicies }
          buildRoutes env lis rc rest m1 acc1 (entries ++ [entry])

/-- Embeds `newConfigSelector` (xds_resolver.go:298-359): build a selector
from the current Listener and matched virtual host, registering clusters as it
goes; only after all fallible work succeeds, increment the reference count of
every cluster the selector references.  Returns the updated state (the
active-cluster table is mutated even on the failure path) together with the
selector or the error.  The caller guarantees `currentVirtualHost` is set; the
`none` branch is unreachable from `onResolutionComplete`. -/
def newConfigSelector (env : ExternalEnv) (r : xdsResolverState) :
    xdsResolverState × Except String configSelector :=
  match r.currentVirtualHost with
  | none => (r, Except.error "nil virtual host")
  | some vh =>
      match buildRoutes env r.currentListener r.currentRouteConfig vh.routes r.activeClusters [] [] with
      | (m1, Except.error e) => ({ r with activeClusters := m1 }, Except.error e)
      | (m1, Except.ok (names, entries)) =>
          let m2 := names.foldl (fun m k => bumpRef m k 1) m1
          ({ r with activeClusters := m2 },
           Except.ok
             { clusters := names
               routes := entries
               vhHTTPFilterConfigOverride := vh.httpFilterConfigOverride
               vhRetryConfig := vh.retryConfig
               httpFilterConfig := r.currentListener.httpFilters })

/-- Embeds `resolutionComplete` (xds_resolver.go:393-395). -/
def resolutionComplete (r : xdsResolverState) : Bool :=
  r.listenerUpdateRecvd && r.routeConfigUpdateRecvd && r.currentVirtualHost.isSome

/-- Embeds `sendNewServiceConfig` (xds_resolver.go:262-291): prune the
active-cluster table; with a nil selector and an empty table push the empty
document (with no selector attachment); otherwise push the formatted service
configuration with the given selector.  Returns the updated state, the channel
outputs, and the success flag. -/
def sendNewServiceConfig (s : xdsResolverState) (cs : Option configSelector) :
    xdsResolverState × List Output × Bool :=
  let m := pruneActiveClusters s.activeClusters
  let s1 := { s with activeClusters := m }
  if cs = none ∧ m = [] then
    (s1, [Output.updateState ServiceConfig.emptyDoc none], true)
  else
    match serviceConfigJSON m with
    | Except.error e => (s1, [Output.reportError e], false)
    | Except.ok sc => (s1, [Output.updateState sc cs], true)

/-- Embeds `onResolutionComplete` (xds_resolver.go:409-431): guard on
`resolutionComplete`; build a selector (reporting failure and keeping the
previous selector); emit the service configuration (on emission failure, stop
the fresh selector and keep the previous one); otherwise stop the previous
selector and install the fresh one. -/
def onResolutionComplete (env : ExternalEnv) (s : xdsResolverState) :
    xdsResolverState × List Output :=
  if resolutionComplete s = true then
    match newConfigSelector env s with
    | (s1, Except.error e) => (s1, [Output.reportError e])
    | (s1, Except.ok cs) =>
        let r2 := sendNewServiceConfig s1 (some cs)
        if r2.2.2 then
          ({ r2.1 with
              activeClusters := stopSelector r2.1.curConfigSelector r2.1.activeClusters
              curConfigSelector := some cs }, r2.2.1)
        else
          ({ r2.1 with activeClusters := stopSelector (some cs) r2.1.activeClusters }, r2.2.1)
  else (s, [])

/-- Embeds `onError` (xds_resolver.go:451-453): surface the error, keep the
state. -/
def onError (s : xdsResolverState) (e : String) : xdsResolverState × List Output :=
  (s, [Output.reportError e])

/-- Embeds `applyRouteConfigUpdate` (xds_resolver.go:433-444). -/
def applyRouteConfigUpdate (env : ExternalEnv) (s : xdsResolverState)
    (update : RouteConfigUpdate) : xdsResolverState × List Output :=
  match env.findBestMatchingVirtualHost s.ldsResourceName update.virtualHosts with
  | none => onError s ("no matching virtual host found for " ++ s.ldsResourceName)
  | some vh =>
      onResolutionComplete env
        { s with
            currentRouteConfig := update
            currentVirtualHost := some vh
            routeConfigUpdateRecvd := true }

/-- Embeds `onResourceNotFound` (xds_resolver.go:459-473): emit with a nil
selector, then stop and drop the current selector. -/
def onResourceNotFound (s : xdsResolverState) : xdsResolverState × List Output :=
  let r1 := sendNewServiceConfig s none
  let s1 := r1.1
  ({ s1 with
      activeClusters := stopSelector s1.curConfigSelector s1.activeClusters
      curConfigSelector := none }, r1.2.1)

/-- Embeds `onListenerResourceUpdate` (xds_resolver.go:476-518). -/
def onListenerResourceUpdate (env : ExternalEnv) (s : xdsResolverState)
    (update : ListenerUpdate) : xdsResolverState × List Output :=
  let s0 := { s with currentListener := update, listenerUpdateRecvd := true }
  match update.inlineRouteConfig with
  | some rc =>
      applyRouteConfigUpdate env { s0 with rdsResourceName := "", routeConfigWatcher := none } rc
  | none =>
      if s0.rdsResourceName = update.routeConfigName then
        onResolutionComplete env s0
      else
        let s1 := { s0 with rdsResourceName := update.routeConfigName }
        let s2 :=
          match s1.routeConfigWatcher with
          | some _ =>
              { s1 with
                  routeConfigWatcher := none
                  currentVirtualHost := none
                  routeConfigUpdateRecvd := false }
          | none => s1
        ({ s2 with routeConfigWatcher := some update.routeConfigName }, [])

/-- Embeds `onListenerResourceError` (xds_resolver.go:520-525). -/
def onListenerResourceError (s : xdsResolverState) (e : String) :
    xdsResolverState × List Output :=
  onError s e

/-- Embeds `onListenerResourceNotFound` (xds_resolver.go:528-544). -/
def onListenerResourceNotFound (s : xdsResolverState) : xdsResolverState × List Output :=
  onResourceNotFound
    { s with
        listenerUpdateRecvd := false
        rdsResourceName := ""
        currentVirtualHost := none
        routeConfigUpdateRecvd := false
        routeConfigWatcher := none }

/-- Embeds `onRouteConfigResourceUpdate` (xds_resolver.go:547-558). -/
def onRouteConfigResourceUpdate (env : ExternalEnv) (name : String)
    (update : RouteConfigUpdate) (s : xdsResolverState) : xdsResolverState × List Output :=
  if s.rdsResourceName ≠ name then (s, [])
  else applyRouteConfigUpdate env s update

/-- Embeds `onRouteConfigResourceError` (xds_resolver.go:561-566): the resource
name is only logged; the error is surfaced unconditionally. -/
def onRouteConfigResourceError (_name : String) (e : String)
    (s : xdsResolverState) : xdsResolverState × List Output :=
  onError s e

/-- Embeds `onRouteConfigResourceNotFound` (xds_resolver.go:569-578). -/
def onRouteConfigResourceNotFound (name : String) (s : xdsResolverState) :
    xdsResolverState × List Output :=
  if s.rdsResourceName ≠ name then (s, [])
  else onResourceNotFound s

/-- An authority entry of the bootstrap configuration; only the listener
resource-name template is read by the resolver. -/
structure Authority where
  clientListenerResourceNameTemplate : String
deriving DecidableEq

/-- The bootstrap configuration fields consumed by the resolver: the default
listener template, the authorities map, and the certificate-provider configs
(only their presence matters, so they are kept as opaque names). -/
structure BootstrapConfig where
  clientDefaultListenerResourceNameTemplate : String
  authorities : List (String × Authority)
  certProviderConfigs : List String
deriving DecidableEq

/-- Transport credentials as seen by the sanity checks: `usesXDSIface = some b`
models an implementation of the `UsesXDS() bool` interface returning `b`;
`none` models credentials without that interface. -/
structure TransportCreds where
  usesXDSIface : Option Bool
deriving DecidableEq

/-- The build options consumed by the sanity checks.  `credsBundle` is
represented by the transport credentials its `TransportCredentials()` method
returns. -/
structure BuildOptions where
  dialCreds : Option TransportCreds
  credsBundle : Option TransportCreds
deriving DecidableEq

/-- The parsed target URL.  `opq` embeds the Go field `URL.Opaque`. -/
structure URL where
  host : String
  path : String
  opq : String
deriving DecidableEq

/-- The dial target handed to `Build`. -/
structure Target where
  url : URL
deriving DecidableEq

/-- The credentials selected by the switch in `sanityChecksOnBootstrapConfig`
(xds_resolver.go:149-155): dial credentials take precedence over the bundle. -/
def credsOf (opts : BuildOptions) : Option TransportCreds :=
  match opts.dialCreds with
  | some c => some c
  | none => opts.credsBundle

/-- The `ok && xc.UsesXDS()` check of xds_resolver.go:156: true exactly when
credentials were selected, implement the interface, and report xDS use. -/
def usesXDSCreds (opts : BuildOptions) : Bool :=
  match credsOf opts with
  | some c => c.usesXDSIface.getD false
  | none => false

/-- Embeds `sanityChecksOnBootstrapConfig` (xds_resolver.go:137-179): fail on a
nil bootstrap configuration; fail when xDS-aware credentials are requested but
no certificate providers are configured; pick the default template, or the
authority template for the target authority, failing when the authority has no
bootstrap entry.  Returns the listener resource-name template. -/
def sanityChecksOnBootstrapConfig (target : Target) (opts : BuildOptions)
    (bootstrapConfig : Option BootstrapConfig) : Except String String :=
  match bootstrapConfig with
  | none => Except.error "xds: bootstrap configuration is empty"
  | some bc =>
      if usesXDSCreds opts = true ∧ bc.certProviderConfigs = [] then
        Except.error "xds: use of xDS credentials is specified, but certificate_providers config missing in bootstrap file"
      else
        let template := bc.clientDefaultListenerResourceNameTemplate
        if target.url.host ≠ "" then
          match List.lookup target.url.host bc.authorities with
          | none => Except.error "xds: authority specified in dial target is not found in the bootstrap file"
          | some a =>
              Except.ok
                (if a.clientListenerResourceNameTemplate ≠ "" then
                  a.clientListenerResourceNameTemplate
                else template)
        else Except.ok template

/-- Embeds `strings.TrimPrefix`: remove `pre` from the front of `s` exactly
once, when present. -/
def trimPre (s pre : String) : String :=
  if pre.data.isPrefixOf s.data then String.mk (s.data.drop pre.data.length) else s

/-- The endpoint derivation of `Build` (xds_resolver.go:118-122): the URL path,
falling back to the URL opaque part when the path is empty, with one leading
slash trimmed. -/
def endpointForTarget (t : Target) : String :=
  trimPre (if t.url.path = "" then t.url.opq else t.url.path) "/"

/-- Modelled from the spec: `bootstrap.PopulateResourceTemplate` (outside the
embedded file).  Spec section 6: the endpoint is substituted for the template
placeholder; each occurrence of the two-character placeholder is replaced. -/
def substPlaceholder : List Char → List Char → List Char
  | [], _ => []
  | '%' :: 's' :: rest, e => e ++ substPlaceholder rest e
  | c :: rest, e => c :: substPlaceholder rest e

/-- Modelled from the spec: see `substPlaceholder`. -/
def populateResourceTemplate (template endpoint : String) : String :=
  String.mk (substPlaceholder template.data endpoint.data)

/-- The resolver value returned by a successful `Build`, reduced to the fields
the claims concern: the listener resource name and the listener watcher,
represented by the resource name it subscribes to. -/
structure builtResolver where
  ldsResourceName : String
  listenerWatcher : Option String
deriving DecidableEq

/-- Embeds `Build` (xds_resolver.go:76-126) from the sanity checks onward.
The xDS client construction is an external collaborator and is represented by
the bootstrap configuration it reports (a client-creation failure also aborts
`Build` before any watcher exists, but none of the claims concern it). -/
def Build (bootstrapConfig : Option BootstrapConfig) (target : Target)
    (opts : BuildOptions) : Except String builtResolver :=
  match sanityChecksOnBootstrapConfig target opts bootstrapConfig with
  | Except.error e => Except.error e
  | Except.ok template =>
      let name := populateResourceTemplate template (endpointForTarget target)
      Except.ok { ldsResourceName := name, listenerWatcher := some name }

/-- The listener watcher created by a `Build` invocation: none when `Build`
fails. -/
def watcherCreated : Except String builtResolver → Option String
  | Except.ok r => r.listenerWatcher
  | Except.error _ => none

/-! ### Helper lemmas about the active-cluster table -/

theorem acGet_append_left {m : AC} {j : String} {w : clusterInfo} (l : AC)
    (h : acGet m j = some w) : acGet (m ++ l) j = some w := by
  induction m with
  | nil => simp [acGet] at h
  | cons p rest ih =>
      obtain ⟨k', v⟩ := p
      by_cases hk : k' = j
      · simp [acGet, hk] at h ⊢
        exact h
      · simp [acGet, hk] at h ⊢
        exact ih h

theorem acGet_append_right {m : AC} {j : String} (l : AC)
    (h : acGet m j = none) : acGet (m ++ l) j = acGet l j := by
  induction m with
  | nil => rfl
  | cons p rest ih =>
      obtain ⟨k', v⟩ := p
      by_cases hk : k' = j
      · simp [acGet, hk] at h
      · simp [acGet, hk] at h ⊢
        exact ih h

theorem acGet_acModify_self (m : AC) (k : String) (f : clusterInfo → clusterInfo) :
    acGet (acModify m k f) k = (acGet m k).map f := by
  induction m with
  | nil => rfl
  | cons p rest ih =>
      obtain ⟨k', v⟩ := p
      by_cases hk : k' = k
      · simp [acGet, acModify, hk]
      · simp [acGet, acModify, hk, ih]

theorem acGet_acModify_ne (m : AC) (k : String) (f : clusterInfo → clusterInfo)
    {j : String} (h : j ≠ k) : acGet (acModify m k f) j = acGet m j := by
  induction m with
  | nil => rfl
  | cons p rest ih =>
      obtain ⟨k', v⟩ := p
      by_cases hk : k' = k
      · subst hk
        have hj : ¬ k' = j := fun hc => h hc.symm
        simp [acGet, acModify, hj]
      · by_cases hj : k' = j
        · subst hj
          simp [acGet, acModify, hk, h]
        · simp [acGet, acModify, hk, hj, ih]

/-- "No reference count was incremented going from table `m` to table `m'`":
every entry of `m'` either keeps the reference count it had in `m` or is a
fresh entry with a zero count.  This is the frame property the failed-build
claim needs. -/
def RefPreserved (m m' : AC) : Prop :=
  ∀ k ci2, acGet m' k = some ci2 →
    (∃ ci1, acGet m k = some ci1 ∧ ci2.refCount = ci1.refCount) ∨ ci2.refCount = 0

theorem refPreserved_refl (m : AC) : RefPreserved m m :=
  fun _ ci2 h => Or.inl ⟨ci2, h, rfl⟩

theorem refPreserved_trans {m1 m2 m3 : AC}
    (h12 : RefPreserved m1 m2) (h23 : RefPreserved m2 m3) : RefPreserved m1 m3 := by
  intro k ci3 h3
  rcases h23 k ci3 h3 with ⟨ci2, h2, e32⟩ | hz
  · rcases h12 k ci2 h2 with ⟨ci1, h1, e21⟩ | hz2
    · exact Or.inl ⟨ci1, h1, e32.trans e21⟩
    · exact Or.inr (e32.trans hz2)
  · exact Or.inr hz

theorem refPreserved_addOrGet (m : AC) (n : String) :
    RefPreserved m (addOrGetActiveClusterInfo m n).2 := by
  intro j ci2 h
  cases hg : acGet m n with
  | some ci =>
      simp [addOrGetActiveClusterInfo, hg] at h
      exact Or.inl ⟨ci2, h, rfl⟩
  | none =>
      simp [addOrGetActiveClusterInfo, hg] at h
      cases hj : acGet m j with
      | some w =>
          rw [acGet_append_left _ hj] at h
          injection h with h
          subst h
          exact Or.inl ⟨_, rfl, rfl⟩
      | none =>
          rw [acGet_append_right _ hj] at h
          by_cases hnj : n = j
          · subst hnj
            simp [acGet] at h
            subst h
            exact Or.inr rfl
          · simp [acGet, hnj] at h

theorem refPreserved_modify_keepCount (m : AC) (k : String)
    (f : clusterInfo → clusterInfo) (hf : ∀ ci, (f ci).refCount = ci.refCount) :
    RefPreserved m (acModify m k f) := by
  intro j ci2 h
  by_cases hj : j = k
  · subst hj
    rw [acGet_acModify_self] at h
    cases hv : acGet m j with
    | none => rw [hv] at h; simp at h
    | some v =>
        rw [hv] at h
        simp at h
        subst h
        exact Or.inl ⟨v, rfl, hf v⟩
  · rw [acGet_acModify_ne _ _ _ hj] at h
    exact Or.inl ⟨ci2, h, rfl⟩

theorem refPreserved_addClusterCsp (rc : RouteConfigUpdate) (p : String) (m : AC) :
    RefPreserved m (addClusterCsp rc p m).1 := by
  unfold addClusterCsp
  exact refPreserved_trans (refPreserved_addOrGet m _)
    (refPreserved_modify_keepCount _ _ _ (fun _ => rfl))

theorem refPreserved_addWeightedClusters :
    ∀ (wcs : List (String × WeightedCluster)) (m : AC),
      RefPreserved m (addWeightedClusters wcs m).1 := by
  intro wcs
  induction wcs with
  | nil => intro m; exact refPreserved_refl m
  | cons w rest ih =>
      intro m
      obtain ⟨c, wc⟩ := w
      have h1 : RefPreserved m (addOrGetActiveClusterInfo m (clusterKeyOfCDS c)).2 :=
        refPreserved_addOrGet m _
      have h2 : RefPreserved (addOrGetActiveClusterInfo m (clusterKeyOfCDS c)).2
          (acModify (addOrGetActiveClusterInfo m (clusterKeyOfCDS c)).2 (clusterKeyOfCDS c)
            fun ci => { ci with cfg := { childPolicy := ChildPolicy.cdsPolicy c } }) :=
        refPreserved_modify_keepCount _ _ _ (fun _ => rfl)
      have h3 := ih (acModify (addOrGetActiveClusterInfo m (clusterKeyOfCDS c)).2
          (clusterKeyOfCDS c)
          fun ci => { ci with cfg := { childPolicy := ChildPolicy.cdsPolicy c } })
      simpa [addWeightedClusters] using
        refPreserved_trans (refPreserved_trans h1 h2) h3

theorem refPreserved_buildRoutes_error (env : ExternalEnv) (lis : ListenerUpdate)
    (rc : RouteConfigUpdate) :
    ∀ (routes : List Route) (m : AC) (acc : List String) (entries : List RouteEntry)
      (m' : AC) (e : String),
      buildRoutes env lis rc routes m acc entries = (m', Except.error e) →
      RefPreserved m m' := by
  intro routes
  induction routes with
  | nil =>
      intro m acc entries m' e h
      simp [buildRoutes] at h
  | cons rt rest ih =>
      intro m acc entries m' e h
      rw [buildRoutes] at h
      cases hrm : env.routeToMatcher rt with
      | error e' =>
          rw [hrm] at h
          by_cases hcsp : rt.clusterSpecifierPlugin = ""
          · simp [hcsp] at h
            rw [← h.1]
            exact refPreserved_addWeightedClusters _ m
          · simp [hcsp] at h
            rw [← h.1]
            exact refPreserved_addClusterCsp rc _ m
      | ok mt =>
          rw [hrm] at h
          by_cases hcsp : rt.clusterSpecifierPlugin = ""
          · simp only [hcsp, ne_eq, not_true_eq_false, if_false, ite_false] at h
            exact refPreserved_trans (refPreserved_addWeightedClusters _ m) (ih _ _ _ _ _ h)
          · simp only [hcsp, ne_eq, not_false_eq_true, if_true, ite_true] at h
            exact refPreserved_trans (refPreserved_addClusterCsp rc _ m) (ih _ _ _ _ _ h)

/-! ### Shared concrete values used by witnesses and counterexamples -/

/-- A listener update carrying nothing (the Go zero value). -/
def emptyListenerUpdate : ListenerUpdate := ⟨[], 0, none, ""⟩

/-- A route configuration carrying nothing (the Go zero value). -/
def emptyRouteConfig : RouteConfigUpdate := ⟨[], []⟩

/-- The resolver state right after `Build` for the target `xds:///svc`: nothing
received yet, empty active-cluster table, no selector. -/
def initialState : xdsResolverState :=
  { ldsResourceName := "svc", listenerUpdateRecvd := false, currentListener := emptyListenerUpdate,
    rdsResourceName := "", routeConfigWatcher := none, routeConfigUpdateRecvd := false,
    currentRouteConfig := emptyRouteConfig, currentVirtualHost := none,
    activeClusters := [], curConfigSelector := none }

/-- A benign environment instance: every matcher compiles, no virtual host
matches. -/
def envTriv : ExternalEnv := ⟨fun _ => Except.ok "", fun _ _ => none⟩

/-! ### C10 -/

/-- C10: `addOrGetActiveClusterInfo` is idempotent: for a name already present
in the active-cluster table it returns the existing entry with the table (and
hence refCount and child config) unchanged; for a new name it inserts and
returns a fresh entry with refCount 0; and no existing entry of the table is
ever changed by the lookup-or-insert. -/
theorem addOrGetActiveClusterInfo_idempotent (m : AC) (n : String) :
    (∀ ci, acGet m n = some ci → addOrGetActiveClusterInfo m n = (ci, m)) ∧
    (acGet m n = none →
      addOrGetActiveClusterInfo m n =
        ({ refCount := 0, cfg := { childPolicy := ChildPolicy.noPolicy } },
         m ++ [(n, { refCount := 0, cfg := { childPolicy := ChildPolicy.noPolicy } })])) ∧
    (∀ j ci, acGet m j = some ci → acGet (addOrGetActiveClusterInfo m n).2 j = some ci) := by
  refine ⟨?_, ?_, ?_⟩
  · intro ci h
    simp [addOrGetActiveClusterInfo, h]
  · intro h
    simp [addOrGetActiveClusterInfo, h]
  · intro j ci h
    cases hg : acGet m n with
    | some w => simpa [addOrGetActiveClusterInfo, hg] using h
    | none =>
        simp only [addOrGetActiveClusterInfo, hg]
        exact acGet_append_left _ h

/-- Witness for C10: looking up the existing entry for `cluster:A` returns it
and leaves the table untouched. -/
theorem addOrGetActiveClusterInfo_idempotent_witness :
    addOrGetActiveClusterInfo
        [("cluster:A", ⟨2, ⟨ChildPolicy.cdsPolicy "A"⟩⟩)] "cluster:A" =
      (⟨2, ⟨ChildPolicy.cdsPolicy "A"⟩⟩,
       [("cluster:A", ⟨2, ⟨ChildPolicy.cdsPolicy "A"⟩⟩)]) :=
  (addOrGetActiveClusterInfo_idempotent
      [("cluster:A", ⟨2, ⟨ChildPolicy.cdsPolicy "A"⟩⟩)] "cluster:A").1
    ⟨2, ⟨ChildPolicy.cdsPolicy "A"⟩⟩ (by decide)

/-! ### C6 -/

/-- C6: `onResolutionComplete` is a no-op — no selector is built, nothing is
emitted, no state changes — unless both received flags are set and the current
virtual host is non-nil. -/
theorem onResolutionComplete_noop_unless_ready (env : ExternalEnv) (s : xdsResolverState)
    (h : ¬(s.listenerUpdateRecvd = true ∧ s.routeConfigUpdateRecvd = true ∧
           s.currentVirtualHost ≠ none)) :
    onResolutionComplete env s = (s, []) := by
  have hrc : resolutionComplete s = false := by
    unfold resolutionComplete
    cases hl : s.listenerUpdateRecvd <;>
      cases hr : s.routeConfigUpdateRecvd <;>
        cases hv : s.currentVirtualHost <;> simp_all
  unfold onResolutionComplete
  rw [hrc]
  simp

/-- Witness for C6: the guard fails on the freshly built resolver state, and
the callback changes nothing. -/
theorem onResolutionComplete_noop_unless_ready_witness :
    onResolutionComplete envTriv initialState = (initialState, []) :=
  onResolutionComplete_noop_unless_ready envTriv initialState (by decide)

/-! ### C3 -/

/-- State with an active RDS subscription to `rc1`, used to exercise the
stale-name route-config callbacks. -/
def stateSubscribedRC1 : xdsResolverState := { initialState with rdsResourceName := "rc1" }

/-- Counterexample for C3: `onRouteConfigResourceError` for the stale resource
name `stale` (the subscription is to `rc1`) still surfaces the error to the
channel — stale route-config errors are NOT dropped by the code. -/
theorem staleRouteConfigError_surfaced_counterexample :
    stateSubscribedRC1.rdsResourceName ≠ "stale" ∧
    (onRouteConfigResourceError "stale" "boom" stateSubscribedRC1).2 =
      [Output.reportError "boom"] := by
  decide

/-- C3 (amended): route-config update and not-found callbacks whose resource
name differs from the subscribed `rdsResourceName` produce no state change and
surface nothing to the channel; the route-config error callback never changes
resolver state, but it surfaces the error to the channel unconditionally,
whether or not the name is stale. -/
theorem stale_route_callbacks_behavior :
    (∀ (env : ExternalEnv) (s : xdsResolverState) (n : String) (u : RouteConfigUpdate),
        s.rdsResourceName ≠ n → onRouteConfigResourceUpdate env n u s = (s, [])) ∧
    (∀ (s : xdsResolverState) (n : String),
        s.rdsResourceName ≠ n → onRouteConfigResourceNotFound n s = (s, [])) ∧
    (∀ (s : xdsResolverState) (n e : String),
        onRouteConfigResourceError n e s = (s, [Output.reportError e])) := by
  refine ⟨?_, ?_, ?_⟩
  · intro env s n u h
    simp [onRouteConfigResourceUpdate, h]
  · intro s n h
    simp [onRouteConfigResourceNotFound, h]
  · intro s n e
    rfl

/-- Witness for C3 (amended): a stale route-config update is entirely
ignored. -/
theorem stale_route_callbacks_behavior_witness :
    onRouteConfigResourceUpdate envTriv "stale" emptyRouteConfig stateSubscribedRC1 =
      (stateSubscribedRC1, []) :=
  stale_route_callbacks_behavior.1 envTriv stateSubscribedRC1 "stale" emptyRouteConfig
    (by decide)

/-! ### C7 -/

/-- C7: `sendNewServiceConfig` emits the empty service-configuration document
if and only if it is called with a nil config selector and the active-cluster
table is empty after pruning; in that case it reports success and pushes the
empty document directly, without consulting the service-config formatter. -/
theorem sendNewServiceConfig_empty_doc_iff (s : xdsResolverState)
    (cs : Option configSelector) :
    ((∃ c, Output.updateState ServiceConfig.emptyDoc c ∈ (sendNewServiceConfig s cs).2.1) ↔
      cs = none ∧ pruneActiveClusters s.activeClusters = []) ∧
    (cs = none ∧ pruneActiveClusters s.activeClusters = [] →
      sendNewServiceConfig s cs =
        ({ s with activeClusters := pruneActiveClusters s.activeClusters },
         [Output.updateState ServiceConfig.emptyDoc none], true)) := by
  constructor
  · by_cases h : cs = none ∧ pruneActiveClusters s.activeClusters = []
    · simp [sendNewServiceConfig, h]
    · simp only [sendNewServiceConfig, serviceConfigJSON, if_neg h]
      simp [h]
  · intro h
    simp [sendNewServiceConfig, h]

/-- Witness for C7: on the fresh state (empty table) with a nil selector, the
emission is exactly the empty document with success reported. -/
theorem sendNewServiceConfig_empty_doc_iff_witness :
    sendNewServiceConfig initialState none =
      ({ initialState with activeClusters := pruneActiveClusters initialState.activeClusters },
       [Output.updateState ServiceConfig.emptyDoc none], true) :=
  (sendNewServiceConfig_empty_doc_iff initialState none).2 (by decide)

/-! ### C1 -/

theorem mem_keys_of_acGet_some {m : AC} {k : String} {ci : clusterInfo}
    (h : acGet m k = some ci) : k ∈ m.map Prod.fst := by
  induction m with
  | nil => simp [acGet] at h
  | cons p rest ih =>
      obtain ⟨k', v⟩ := p
      by_cases hk : k' = k
      · subst hk; simp
      · simp [acGet, hk] at h
        simp [ih h]

theorem mem_keys_of_mem_pruned_keys {m : AC} {k : String}
    (h : k ∈ (pruneActiveClusters m).map Prod.fst) : k ∈ m.map Prod.fst := by
  simp only [List.mem_map] at h ⊢
  obtain ⟨p, hp, hk⟩ := h
  exact ⟨p, List.mem_of_mem_filter hp, hk⟩

/-- The keys surviving `pruneActiveClusters` are exactly the keys whose entry
carries a reference count of at least one, provided the table has unique keys
and non-negative counts (both invariants of every table the resolver builds:
keys are unique because the Go value is a map, and counts are non-negative
because every entry starts at zero and each decrement undoes one increment). -/
theorem mem_pruned_keys_iff (m : AC)
    (hnd : (m.map Prod.fst).Nodup)
    (hnn : ∀ p ∈ m, 0 ≤ p.2.refCount) (k : String) :
    k ∈ (pruneActiveClusters m).map Prod.fst ↔
      ∃ ci, acGet m k = some ci ∧ 1 ≤ ci.refCount := by
  induction m with
  | nil => simp [pruneActiveClusters, acGet]
  | cons p rest ih =>
      obtain ⟨k', ci'⟩ := p
      simp only [List.map_cons, List.nodup_cons] at hnd
      obtain ⟨hk_nmem, hnd'⟩ := hnd
      have h0 : 0 ≤ ci'.refCount := hnn (k', ci') (List.mem_cons_self _ _)
      have hnn' : ∀ q ∈ rest, 0 ≤ q.2.refCount := fun q hq =>
        hnn q (List.mem_cons_of_mem _ hq)
      have ihr := ih hnd' hnn'
      by_cases hr : ci'.refCount = 0
      · have hpr : pruneActiveClusters ((k', ci') :: rest) = pruneActiveClusters rest := by
          simp [pruneActiveClusters, List.filter_cons, bne_iff_ne, hr]
        rw [hpr, ihr]
        by_cases hk : k' = k
        · subst hk
          constructor
          · rintro ⟨ci, hci, -⟩
            exact absurd (mem_keys_of_acGet_some hci) hk_nmem
          · rintro ⟨ci, hci, hge⟩
            simp [acGet] at hci
            subst hci
            omega
        · simp [acGet, hk]
      · have hpr : pruneActiveClusters ((k', ci') :: rest) =
            (k', ci') :: pruneActiveClusters rest := by
          simp [pruneActiveClusters, List.filter_cons, bne_iff_ne, hr]
        rw [hpr]
        simp only [List.map_cons, List.mem_cons]
        by_cases hk : k' = k
        · subst hk
          simp [acGet]
          omega
        · have hke : ¬ k = k' := fun hc => hk hc.symm
          simp [acGet, hk, hke, ihr]

/-- C1: every emission performed by `sendNewServiceConfig` outside the
empty-document branch pushes an `xds_cluster_manager` document whose children
are exactly the entries of the active-cluster table after
`pruneActiveClusters`; equivalently its cluster-key set equals the set of
clusters whose table entry has a reference count of at least one at emission
time. -/
theorem sendNewServiceConfig_lists_exactly_pruned_clusters (s : xdsResolverState)
    (cs : Option configSelector)
    (hnd : (s.activeClusters.map Prod.fst).Nodup)
    (hnn : ∀ p ∈ s.activeClusters, 0 ≤ p.2.refCount)
    (hne : ¬(cs = none ∧ pruneActiveClusters s.activeClusters = [])) :
    (sendNewServiceConfig s cs).2.1 =
      [Output.updateState
        (ServiceConfig.xdsClusterManager
          ((pruneActiveClusters s.activeClusters).map fun p => (p.1, p.2.cfg))) cs] ∧
    ((pruneActiveClusters s.activeClusters).map fun p => (p.1, p.2.cfg)).map Prod.fst =
      (pruneActiveClusters s.activeClusters).map Prod.fst ∧
    (∀ k, k ∈ (pruneActiveClusters s.activeClusters).map Prod.fst ↔
      ∃ ci, acGet s.activeClusters k = some ci ∧ 1 ≤ ci.refCount) := by
  refine ⟨?_, ?_, ?_⟩
  · simp [sendNewServiceConfig, serviceConfigJSON, hne]
  · simp [List.map_map, Function.comp]
  · intro k
    exact mem_pruned_keys_iff _ hnd hnn k

/-- State holding one referenced cluster and one zero-reference cluster, used
to witness the pruning behaviour of emissions. -/
def stateTwoClusters : xdsResolverState :=
  { initialState with
      activeClusters :=
        [("cluster:A", ⟨1, ⟨ChildPolicy.cdsPolicy "A"⟩⟩),
         ("cluster:B", ⟨0, ⟨ChildPolicy.cdsPolicy "B"⟩⟩)] }

/-- Witness for C1: emitting on a table with `cluster:A` at count 1 and
`cluster:B` at count 0 lists exactly the pruned table. -/
theorem sendNewServiceConfig_lists_exactly_pruned_clusters_witness :
    (sendNewServiceConfig stateTwoClusters none).2.1 =
      [Output.updateState
        (ServiceConfig.xdsClusterManager
          ((pruneActiveClusters stateTwoClusters.activeClusters).map fun p => (p.1, p.2.cfg)))
        none] :=
  (sendNewServiceConfig_lists_exactly_pruned_clusters stateTwoClusters none
    (by decide) (by decide) (by decide)).1

/-! ### C2 -/

/-- C2: when the selector build fails (invalid route matcher),
`onResolutionComplete` surfaces exactly that error to the channel, the
previously installed config selector remains the current selector, and no
cluster reference count was incremented by the failed build: every table entry
either keeps its old count or is a freshly inserted zero-count entry
(`RefPreserved`). -/
theorem newConfigSelector_failure_reports_and_preserves (env : ExternalEnv)
    (s s₁ : xdsResolverState) (e : String)
    (hrc : resolutionComplete s = true)
    (hfail : newConfigSelector env s = (s₁, Except.error e)) :
    onResolutionComplete env s = (s₁, [Output.reportError e]) ∧
    s₁.curConfigSelector = s.curConfigSelector ∧
    RefPreserved s.activeClusters s₁.activeClusters := by
  have hmain : onResolutionComplete env s = (s₁, [Output.reportError e]) := by
    simp [onResolutionComplete, hrc, hfail]
  refine ⟨hmain, ?_⟩
  cases hvh : s.currentVirtualHost with
  | none =>
      simp [newConfigSelector, hvh] at hfail
      obtain ⟨h1, -⟩ := hfail
      subst h1
      exact ⟨rfl, refPreserved_refl _⟩
  | some vh =>
      rcases hb : buildRoutes env s.currentListener s.currentRouteConfig vh.routes
          s.activeClusters [] [] with ⟨m1, res⟩
      cases res with
      | error e' =>
          simp [newConfigSelector, hvh, hb] at hfail
          obtain ⟨h1, -⟩ := hfail
          subst h1
          exact ⟨rfl, refPreserved_buildRoutes_error env _ _ _ _ _ _ _ _ hb⟩
      | ok pr =>
          obtain ⟨names, entries⟩ := pr
          simp [newConfigSelector, hvh, hb] at hfail

/-- Environment in which every route matcher fails to compile. -/
def envFailingMatcher : ExternalEnv :=
  ⟨fun _ => Except.error "bad matcher", fun _ vhs => vhs.head?⟩

/-- A route forwarding to weighted cluster `A`. -/
def routeToA : Route := ⟨"", [("A", ⟨3, ""⟩)], "route", none, "", none, [], "m"⟩

/-- A virtual host with the single route to `A`. -/
def vhRouteToA : VirtualHost := ⟨[routeToA], "", none⟩

/-- A resolution-complete state whose virtual host holds the route to `A`. -/
def stateReadyRouteToA : xdsResolverState :=
  { initialState with
      listenerUpdateRecvd := true
      routeConfigUpdateRecvd := true
      currentVirtualHost := some vhRouteToA }

/-- The state produced by the failing selector build on `stateReadyRouteToA`:
`cluster:A` was inserted with a zero reference count. -/
def stateAfterFailedBuild : xdsResolverState :=
  (newConfigSelector envFailingMatcher stateReadyRouteToA).1

/-- Witness for C2: with a matcher that fails to compile, the callback reports
exactly the build error and the current selector is untouched. -/
theorem newConfigSelector_failure_reports_and_preserves_witness :
    onResolutionComplete envFailingMatcher stateReadyRouteToA =
      (stateAfterFailedBuild, [Output.reportError "bad matcher"]) ∧
    stateAfterFailedBuild.curConfigSelector = stateReadyRouteToA.curConfigSelector := by
  have h := newConfigSelector_failure_reports_and_preserves envFailingMatcher
    stateReadyRouteToA stateAfterFailedBuild "bad matcher" (by decide) rfl
  exact ⟨h.1, h.2.1⟩

/-! ### C4 -/

/-- Counterexample for C4: a route-configuration not-found event for the
currently subscribed name `rc1` does NOT clear the route-config-received flag
(nor any other received flag): the flag is still set afterwards, while the
claim requires the appropriate received flags to be cleared. -/
theorem rdsNotFound_keeps_flags_counterexample :
    (let s : xdsResolverState :=
      { initialState with
          rdsResourceName := "rc1"
          routeConfigWatcher := some "rc1"
          routeConfigUpdateRecvd := true
          listenerUpdateRecvd := true }
     s.rdsResourceName = "rc1" ∧ s.routeConfigUpdateRecvd = true ∧
     (onRouteConfigResourceNotFound "rc1" s).1.routeConfigUpdateRecvd = true ∧
     (onRouteConfigResourceNotFound "rc1" s).1.routeConfigWatcher = some "rc1") := by
  decide

/-- C4 (amended): on a Listener not-found event the resolver clears both
received flags, stops the RDS watcher and clears its name and the virtual
host; on a RouteConfiguration not-found event for the currently subscribed
name it clears no flags and leaves the watcher, its name and the virtual host
untouched.  In both cases it then emits a service configuration built from the
pruned active-cluster table together with a nil config selector (the empty
document when the pruned table is empty), and stops and releases the previous
selector. -/
theorem resource_not_found_behavior :
    (∀ s : xdsResolverState,
      onListenerResourceNotFound s =
        ({ s with
            listenerUpdateRecvd := false
            rdsResourceName := ""
            currentVirtualHost := none
            routeConfigUpdateRecvd := false
            routeConfigWatcher := none
            activeClusters :=
              stopSelector s.curConfigSelector (pruneActiveClusters s.activeClusters)
            curConfigSelector := none },
         if pruneActiveClusters s.activeClusters = [] then
           [Output.updateState ServiceConfig.emptyDoc none]
         else
           [Output.updateState
             (ServiceConfig.xdsClusterManager
               ((pruneActiveClusters s.activeClusters).map fun p => (p.1, p.2.cfg))) none])) ∧
    (∀ (s : xdsResolverState) (n : String), s.rdsResourceName = n →
      onRouteConfigResourceNotFound n s =
        ({ s with
            activeClusters :=
              stopSelector s.curConfigSelector (pruneActiveClusters s.activeClusters)
            curConfigSelector := none },
         if pruneActiveClusters s.activeClusters = [] then
           [Output.updateState ServiceConfig.emptyDoc none]
         else
           [Output.updateState
             (ServiceConfig.xdsClusterManager
               ((pruneActiveClusters s.activeClusters).map fun p => (p.1, p.2.cfg))) none])) := by
  constructor
  · intro s
    unfold onListenerResourceNotFound onResourceNotFound sendNewServiceConfig
    by_cases hm : pruneActiveClusters s.activeClusters = []
    · simp [hm, serviceConfigJSON]
    · simp [hm, serviceConfigJSON]
  · intro s n h
    unfold onRouteConfigResourceNotFound onResourceNotFound sendNewServiceConfig
    by_cases hm : pruneActiveClusters s.activeClusters = []
    · simp [h, hm, serviceConfigJSON]
    · simp [h, hm, serviceConfigJSON]

/-- Witness for C4 (amended): the RDS not-found event for the subscribed name
stops the selector and emits with a nil selector, leaving flags and watcher
untouched. -/
theorem resource_not_found_behavior_witness :
    onRouteConfigResourceNotFound "rc1" stateSubscribedRC1 =
      ({ stateSubscribedRC1 with
          activeClusters :=
            stopSelector stateSubscribedRC1.curConfigSelector
              (pruneActiveClusters stateSubscribedRC1.activeClusters)
          curConfigSelector := none },
       if pruneActiveClusters stateSubscribedRC1.activeClusters = [] then
         [Output.updateState ServiceConfig.emptyDoc none]
       else
         [Output.updateState
           (ServiceConfig.xdsClusterManager
             ((pruneActiveClusters stateSubscribedRC1.activeClusters).map
               fun p => (p.1, p.2.cfg))) none]) :=
  resource_not_found_behavior.2 stateSubscribedRC1 "rc1" rfl

/-! ### C5 -/

/-- Environment in which the headmost virtual host matches and every matcher
compiles. -/
def envHeadFirst : ExternalEnv := ⟨fun _ => Except.ok "", fun _ vhs => vhs.head?⟩

/-- A virtual host with no routes. -/
def vhEmpty : VirtualHost := ⟨[], "", none⟩

/-- An inline route configuration carrying `vhEmpty`. -/
def rcInline : RouteConfigUpdate := ⟨[vhEmpty], []⟩

/-- A listener update with an inline route configuration (no RDS watcher is
ever started for it). -/
def listenerInline : ListenerUpdate := ⟨[], 0, some rcInline, ""⟩

/-- A listener update switching to the RDS resource `rc1`. -/
def listenerToRC1 : ListenerUpdate := ⟨[], 0, none, "rc1"⟩

/-- The state reached from the fresh resolver by the inline-route listener
update: virtual host set, route config received, but no RDS watcher. -/
def stateAfterInline : xdsResolverState :=
  (onListenerResourceUpdate envHeadFirst initialState listenerInline).1

/-- Counterexample for C5: from the reachable state `stateAfterInline` (an
inline route configuration was applied, so `rdsResourceName` is empty, no RDS
watcher exists, and the virtual host and received flag are set), a listener
update carrying the differing route-config name `rc1` does NOT clear
`currentVirtualHost` and does NOT clear the route-config-received flag — both
survive, while the claim requires them cleared. -/
theorem listener_name_change_keeps_vh_counterexample :
    stateAfterInline.routeConfigWatcher = none ∧
    stateAfterInline.rdsResourceName ≠ listenerToRC1.routeConfigName ∧
    listenerToRC1.inlineRouteConfig = none ∧
    stateAfterInline.currentVirtualHost = some vhEmpty ∧
    stateAfterInline.routeConfigUpdateRecvd = true ∧
    (onListenerResourceUpdate envHeadFirst stateAfterInline listenerToRC1).1.currentVirtualHost
      = some vhEmpty ∧
    (onListenerResourceUpdate envHeadFirst stateAfterInline
        listenerToRC1).1.routeConfigUpdateRecvd = true := by
  decide

/-- C5 (amended): when a listener update (with no inline configuration)
carries a route-config name different from the current `rdsResourceName`, the
resolver records the listener, records the new name, starts a new RDS watcher
and sends nothing to the channel, keeping `currentRouteConfig`, the
active-cluster table and the current config selector untouched; it cancels the
existing RDS watcher and clears `currentVirtualHost` and the
route-config-received flag ONLY when such a watcher exists (after an inline
route configuration there is no watcher, and the virtual host and the flag are
left as they were). -/
theorem listener_rds_name_change_behavior (env : ExternalEnv) (s : xdsResolverState)
    (u : ListenerUpdate) (hinline : u.inlineRouteConfig = none)
    (hname : s.rdsResourceName ≠ u.routeConfigName) :
    onListenerResourceUpdate env s u =
      ({ s with
          currentListener := u
          listenerUpdateRecvd := true
          rdsResourceName := u.routeConfigName
          routeConfigWatcher := some u.routeConfigName
          currentVirtualHost :=
            if s.routeConfigWatcher.isSome = true then none else s.currentVirtualHost
          routeConfigUpdateRecvd :=
            if s.routeConfigWatcher.isSome = true then false
            else s.routeConfigUpdateRecvd }, []) := by
  unfold onListenerResourceUpdate
  rw [hinline]
  cases hw : s.routeConfigWatcher with
  | none => simp [hname, hw]
  | some w => simp [hname, hw]

/-- State subscribed to `rc1` through a live watcher, with a virtual host and
the received flag set. -/
def stateWatcherRC1 : xdsResolverState :=
  { initialState with
      rdsResourceName := "rc1"
      routeConfigWatcher := some "rc1"
      currentVirtualHost := some vhEmpty
      routeConfigUpdateRecvd := true }

/-- Witness for C5 (amended): with a live watcher on `rc1`, switching to `rc2`
cancels it, clears the virtual host and the received flag, records `rc2`,
starts the new watcher, and sends nothing. -/
theorem listener_rds_name_change_behavior_witness :
    onListenerResourceUpdate envTriv stateWatcherRC1 ⟨[], 0, none, "rc2"⟩ =
      ({ stateWatcherRC1 with
          currentListener := ⟨[], 0, none, "rc2"⟩
          listenerUpdateRecvd := true
          rdsResourceName := "rc2"
          routeConfigWatcher := some "rc2"
          currentVirtualHost :=
            if stateWatcherRC1.routeConfigWatcher.isSome = true then none
            else stateWatcherRC1.currentVirtualHost
          routeConfigUpdateRecvd :=
            if stateWatcherRC1.routeConfigWatcher.isSome = true then false
            else stateWatcherRC1.routeConfigUpdateRecvd }, []) :=
  listener_rds_name_change_behavior envTriv stateWatcherRC1 ⟨[], 0, none, "rc2"⟩
    rfl (by decide)

/-! ### C8 -/

/-- C8: `Build` fails synchronously, creating no listener watcher, when the
bootstrap configuration is empty; when xDS-aware transport credentials are
requested but the bootstrap has no certificate-provider configs; and when the
target URI carries an authority absent from the bootstrap authorities map. -/
theorem build_failure_cases :
    (∀ (t : Target) (o : BuildOptions),
      (∃ e, Build none t o = Except.error e) ∧ watcherCreated (Build none t o) = none) ∧
    (∀ (bc : BootstrapConfig) (t : Target) (o : BuildOptions),
      usesXDSCreds o = true → bc.certProviderConfigs = [] →
      (∃ e, Build (some bc) t o = Except.error e) ∧
        watcherCreated (Build (some bc) t o) = none) ∧
    (∀ (bc : BootstrapConfig) (t : Target) (o : BuildOptions),
      t.url.host ≠ "" → List.lookup t.url.host bc.authorities = none →
      (∃ e, Build (some bc) t o = Except.error e) ∧
        watcherCreated (Build (some bc) t o) = none) := by
  refine ⟨?_, ?_, ?_⟩
  · intro t o
    exact ⟨⟨_, rfl⟩, rfl⟩
  · intro bc t o h1 h2
    have hs : sanityChecksOnBootstrapConfig t o (some bc) =
        Except.error "xds: use of xDS credentials is specified, but certificate_providers config missing in bootstrap file" := by
      simp [sanityChecksOnBootstrapConfig, h1, h2]
    have hb : Build (some bc) t o =
        Except.error "xds: use of xDS credentials is specified, but certificate_providers config missing in bootstrap file" := by
      simp [Build, hs]
    exact ⟨⟨_, hb⟩, by rw [hb]; rfl⟩
  · intro bc t o h1 h2
    by_cases hx : usesXDSCreds o = true ∧ bc.certProviderConfigs = []
    · have hs : sanityChecksOnBootstrapConfig t o (some bc) =
          Except.error "xds: use of xDS credentials is specified, but certificate_providers config missing in bootstrap file" := by
        simp [sanityChecksOnBootstrapConfig, hx]
      have hb : Build (some bc) t o =
          Except.error "xds: use of xDS credentials is specified, but certificate_providers config missing in bootstrap file" := by
        simp [Build, hs]
      exact ⟨⟨_, hb⟩, by rw [hb]; rfl⟩
    · have hs : sanityChecksOnBootstrapConfig t o (some bc) =
          Except.error "xds: authority specified in dial target is not found in the bootstrap file" := by
        simp [sanityChecksOnBootstrapConfig, hx, h1, h2]
      have hb : Build (some bc) t o =
          Except.error "xds: authority specified in dial target is not found in the bootstrap file" := by
        simp [Build, hs]
      exact ⟨⟨_, hb⟩, by rw [hb]; rfl⟩

/-- A bootstrap configuration knowing only the authority `known`. -/
def bootstrapKnownOnly : BootstrapConfig :=
  { clientDefaultListenerResourceNameTemplate := "%s"
    authorities := [("known", ⟨"xdstp://known/%s"⟩)]
    certProviderConfigs := [] }

/-- Witness for C8: dialing `xds://missing/svc` against a bootstrap without the
`missing` authority fails and creates no watcher. -/
theorem build_failure_cases_witness :
    (∃ e, Build (some bootstrapKnownOnly) ⟨⟨"missing", "/svc", ""⟩⟩ ⟨none, none⟩ =
      Except.error e) ∧
    watcherCreated
      (Build (some bootstrapKnownOnly) ⟨⟨"missing", "/svc", ""⟩⟩ ⟨none, none⟩) = none :=
  build_failure_cases.2.2 bootstrapKnownOnly ⟨⟨"missing", "/svc", ""⟩⟩ ⟨none, none⟩
    (by decide) (by decide)

/-! ### C9 -/

theorem trimPre_slash (s : String) :
    trimPre s "/" =
      (match s.data with
       | [] => s
       | c :: rest => if c = '/' then String.mk rest else s) := by
  obtain ⟨l⟩ := s
  cases l with
  | nil => rfl
  | cons c rest =>
      by_cases hc : c = '/'
      · subst hc
        have hd : ("/" : String).data = ['/'] := rfl
        simp [trimPre, hd, List.isPrefixOf]
      · have hd : ("/" : String).data = ['/'] := rfl
        have h1 : (('/' : Char) == c) = false :=
          beq_eq_false_iff_ne.mpr (fun h => hc h.symm)
        simp [trimPre, hd, List.isPrefixOf, h1, hc]

/-- The claim's description of the endpoint derivation: take the URL path,
fall back to the URL opaque part when the path is empty, and strip at most one
leading slash. -/
def claimEndpoint (t : Target) : String :=
  let raw := if t.url.path = "" then t.url.opq else t.url.path
  match raw.data with
  | [] => raw
  | c :: rest => if c = '/' then String.mk rest else raw

/-- C9: the endpoint `Build` substitutes into the listener resource-name
template is exactly the claim's description (path, falling back to the opaque
part, with at most one leading slash stripped), and every successful `Build`
names its listener resource by substituting that endpoint into the template
selected by the bootstrap sanity checks. -/
theorem build_endpoint_derivation :
    (∀ t : Target, endpointForTarget t = claimEndpoint t) ∧
    (∀ (bc : Option BootstrapConfig) (t : Target) (o : BuildOptions) (r : builtResolver),
      Build bc t o = Except.ok r →
      ∃ tpl, sanityChecksOnBootstrapConfig t o bc = Except.ok tpl ∧
        r.ldsResourceName = populateResourceTemplate tpl (claimEndpoint t)) := by
  have hpt : ∀ t : Target, endpointForTarget t = claimEndpoint t := by
    intro t
    simp only [endpointForTarget, claimEndpoint]
    exact trimPre_slash _
  refine ⟨hpt, ?_⟩
  intro bc t o r h
  unfold Build at h
  cases hs : sanityChecksOnBootstrapConfig t o bc with
  | error e =>
      rw [hs] at h
      simp at h
  | ok tpl =>
      rw [hs] at h
      simp at h
      refine ⟨tpl, rfl, ?_⟩
      rw [← h, ← hpt t]

/-- Witness for C9: for the target `xds:///a/b` (path `/a/b`), `Build` with the
default template `%s` succeeds and names the listener resource `a/b` — one
leading slash stripped, the inner one kept. -/
theorem build_endpoint_derivation_witness :
    ∃ tpl,
      sanityChecksOnBootstrapConfig ⟨⟨"", "/a/b", ""⟩⟩ ⟨none, none⟩
          (some ⟨"%s", [], []⟩) = Except.ok tpl ∧
      ({ ldsResourceName := "a/b", listenerWatcher := some "a/b" } : builtResolver).ldsResourceName
        = populateResourceTemplate tpl (claimEndpoint ⟨⟨"", "/a/b", ""⟩⟩) :=
  build_endpoint_derivation.2 (some ⟨"%s", [], []⟩) ⟨⟨"", "/a/b", ""⟩⟩ ⟨none, none⟩
    { ldsResourceName := "a/b", listenerWatcher := some "a/b" } rfl

end XdsRes
